import Mathlib

/-!
Shallow embedding of the MACRO schedule-request core
(`scheduling.py`, `user_db.py`) in Lean 4.

Conventions of the embedding:
* Python strings are Lean `String`s; character-level work is done on
  `String.data` with structurally recursive helpers so that concrete
  evaluations go through `decide` / `rfl`.
* Python `float` arithmetic is modelled exactly by `PyFloat`, an
  unnormalized fraction (integer numerator, natural denominator) with
  gcd-free operations, so concrete runs reduce in the kernel; statements
  about numeric values go through `PyFloat.toRat : PyFloat → ℚ`.  All
  arithmetic performed by `ra_dec_check` is exact in binary-free terms, so
  the rational model is faithful up to floating-point rounding, which no
  settled claim depends on.
* The numeric-literal parser `parseDec` models Python `float(str)` on plain
  decimal literals (optional sign, digits, optional fractional part); all
  theorems about parsed values are stated relative to this parse domain.
* Fallible Python code returns `Except`; a raised exception is `.error`.
* The sqlite database is a list of row structures; SQL `WHERE` clauses are
  evaluated with SQL semantics (a comparison involving `NULL` is not true;
  `IS` is `Option` equality).
-/

set_option autoImplicit false

namespace ScheduleRequest

/-! ## Character-list string utilities -/

/-- Split a character list at every occurrence of `c` (Python `str.split(sep)`):
always returns at least one (possibly empty) piece. -/
def splitOnChar (c : Char) : List Char → List (List Char)
  | [] => [[]]
  | x :: xs =>
    match splitOnChar c xs with
    | [] => if x = c then [[], []] else [[x]]
    | y :: ys => if x = c then [] :: y :: ys else (x :: y) :: ys

/-- Split a character list on runs of whitespace, dropping empty pieces
(Python `str.split()` with no argument). -/
def splitWhitespace : List Char → List (List Char)
  | [] => []
  | x :: xs =>
    if x.isWhitespace then splitWhitespace xs
    else
      match xs with
      | [] => [[x]]
      | x2 :: _ =>
        if x2.isWhitespace then [x] :: splitWhitespace xs
        else
          match splitWhitespace xs with
          | [] => [[x]]
          | y :: ys => (x :: y) :: ys

/-- Python `str.strip()`: remove leading and trailing whitespace. -/
def stripWS (l : List Char) : List Char :=
  ((l.dropWhile Char.isWhitespace).reverse.dropWhile Char.isWhitespace).reverse

/-- Python `str.startswith(pat)` on character lists. -/
def beginsWith : List Char → List Char → Bool
  | [], _ => true
  | _ :: _, [] => false
  | p :: ps, c :: cs => p = c && beginsWith ps cs

/-- Whether the character `c` occurs in the list (Python `c in s`). -/
def containsChar (c : Char) (l : List Char) : Bool :=
  l.any (· = c)

/-- All characters are ASCII digits. -/
def isDigits (l : List Char) : Bool :=
  l.all Char.isDigit

/-- Numeric value of a digit string. -/
def natOfDigits (l : List Char) : Nat :=
  l.foldl (fun a c => 10 * a + (c.toNat - 48)) 0

/-! ## Exact model of Python floats -/

/-- Exact fraction model of a Python `float` value as produced by
`ra_dec_check`: numerator over positive natural denominator, with gcd-free
operations (so kernel reduction of concrete runs is possible).  The real
value is `toRat`. -/
structure PyFloat where
  num : Int
  den : Nat
  deriving DecidableEq, Repr

namespace PyFloat

/-- The rational value of a `PyFloat`. -/
def toRat (a : PyFloat) : ℚ := (a.num : ℚ) / (a.den : ℚ)

/-- Integer literal. -/
def ofNat (n : Nat) : PyFloat := ⟨n, 1⟩

/-- Addition without normalization. -/
def add (a b : PyFloat) : PyFloat :=
  ⟨a.num * b.den + b.num * a.den, a.den * b.den⟩

/-- Division by a (positive) natural constant. -/
def divN (a : PyFloat) (n : Nat) : PyFloat := ⟨a.num, a.den * n⟩

/-- Negation (Python unary minus). -/
def neg (a : PyFloat) : PyFloat := ⟨-a.num, a.den⟩

/-- Python `abs`. -/
def pabs (a : PyFloat) : PyFloat := ⟨|a.num|, a.den⟩

/-- Python `<=` on floats, by cross multiplication (valid for positive
denominators, which every value built by the normalizer has). -/
def ble (a b : PyFloat) : Bool :=
  decide (a.num * (b.den : Int) ≤ b.num * (a.den : Int))

/-- Python `<` on floats, by cross multiplication. -/
def blt (a b : PyFloat) : Bool :=
  decide (a.num * (b.den : Int) < b.num * (a.den : Int))

theorem toRat_ofNat (n : Nat) : (ofNat n).toRat = n := by
  simp [ofNat, toRat]

theorem toRat_add {a b : PyFloat} (ha : 0 < a.den) (hb : 0 < b.den) :
    (a.add b).toRat = a.toRat + b.toRat := by
  have ha' : ((a.den : ℚ)) ≠ 0 := by positivity
  have hb' : ((b.den : ℚ)) ≠ 0 := by positivity
  field_simp [add, toRat]

theorem toRat_divN {a : PyFloat} {n : Nat} (ha : 0 < a.den) (hn : 0 < n) :
    (a.divN n).toRat = a.toRat / n := by
  have ha' : ((a.den : ℚ)) ≠ 0 := by positivity
  have hn' : ((n : ℚ)) ≠ 0 := by positivity
  field_simp [divN, toRat]

theorem toRat_neg (a : PyFloat) : a.neg.toRat = -a.toRat := by
  simp [neg, toRat, neg_div]

theorem toRat_pabs (a : PyFloat) : a.pabs.toRat = |a.toRat| := by
  rw [pabs, toRat, toRat, abs_div]
  simp [abs_of_nonneg]

theorem ble_iff_toRat {a b : PyFloat} (ha : 0 < a.den) (hb : 0 < b.den) :
    a.ble b = true ↔ a.toRat ≤ b.toRat := by
  have ha' : (0 : ℚ) < (a.den : ℚ) := by positivity
  have hb' : (0 : ℚ) < (b.den : ℚ) := by positivity
  rw [ble, decide_eq_true_iff, toRat, toRat, div_le_div_iff ha' hb']
  constructor
  · intro h
    exact_mod_cast h
  · intro h
    exact_mod_cast h

theorem blt_iff_toRat {a b : PyFloat} (ha : 0 < a.den) (hb : 0 < b.den) :
    a.blt b = true ↔ a.toRat < b.toRat := by
  have ha' : (0 : ℚ) < (a.den : ℚ) := by positivity
  have hb' : (0 : ℚ) < (b.den : ℚ) := by positivity
  rw [blt, decide_eq_true_iff, toRat, toRat, div_lt_div_iff ha' hb']
  constructor
  · intro h
    exact_mod_cast h
  · intro h
    exact_mod_cast h

end PyFloat

/-! ## Numeric literal parsing (model of Python `float` / `int` conversion) -/

/-- Leading sign of a numeric literal: `(negative?, remaining characters)`. -/
def parseSign : List Char → Bool × List Char
  | '-' :: rest => (true, rest)
  | '+' :: rest => (false, rest)
  | rest => (false, rest)

/-- Unsigned decimal literal: digits with at most one decimal point, at
least one digit overall (`"1."` and `".5"` are accepted, `"."` and `""`
are rejected, as by Python `float`). -/
def parseUnsignedDec (body : List Char) : Option PyFloat :=
  match splitOnChar '.' body with
  | [ip] =>
    if !ip.isEmpty && isDigits ip then some (PyFloat.ofNat (natOfDigits ip)) else none
  | [ip, fp] =>
    if (!ip.isEmpty || !fp.isEmpty) && isDigits ip && isDigits fp then
      some ((PyFloat.ofNat (natOfDigits ip)).add
        ((PyFloat.ofNat (natOfDigits fp)).divN (10 ^ fp.length)))
    else none
  | _ => none

/-- Model of Python `float(s)` restricted to plain decimal literals. -/
def parseDecL (l : List Char) : Option PyFloat :=
  (parseUnsignedDec (parseSign l).2).map
    (fun q => if (parseSign l).1 then q.neg else q)

/-- `float(s)` on a Lean `String`. -/
def parseDec (s : String) : Option PyFloat :=
  parseDecL s.data

/-- Model of Python `int(s)` on string input: optional sign then digits. -/
def parsePyInt (s : String) : Option Int :=
  match s.data with
  | '-' :: rest =>
    if !rest.isEmpty && isDigits rest then some (-(natOfDigits rest : Int)) else none
  | '+' :: rest =>
    if !rest.isEmpty && isDigits rest then some ((natOfDigits rest : Int)) else none
  | l =>
    if !l.isEmpty && isDigits l then some ((natOfDigits l : Int)) else none

/-- Parse every colon-separated part with `parseDecL`
(the eager `list(map(float, s.split(":")))`). -/
def parseParts : List (List Char) → Option (List PyFloat)
  | [] => some []
  | p :: ps =>
    match parseDecL p, parseParts ps with
    | some q, some qs => some (q :: qs)
    | _, _ => none

/-! ### Denominator positivity of every parsed value -/

theorem parseUnsignedDec_den_pos {body : List Char} {f : PyFloat}
    (h : parseUnsignedDec body = some f) : 0 < f.den := by
  unfold parseUnsignedDec at h
  split at h
  · split at h
    · simp only [Option.some.injEq] at h
      subst h
      simp [PyFloat.ofNat]
    · exact absurd h (by simp)
  · split at h
    · simp only [Option.some.injEq] at h
      subst h
      simp only [PyFloat.ofNat, PyFloat.add, PyFloat.divN]
      positivity
    · exact absurd h (by simp)
  · exact absurd h (by simp)

theorem parseDecL_den_pos {l : List Char} {f : PyFloat}
    (h : parseDecL l = some f) : 0 < f.den := by
  unfold parseDecL at h
  rw [Option.map_eq_some'] at h
  obtain ⟨g, hg, hgf⟩ := h
  have := parseUnsignedDec_den_pos hg
  subst hgf
  split
  · simpa [PyFloat.neg] using this
  · exact this

theorem parseParts_den_pos {L : List (List Char)} {qs : List PyFloat}
    (h : parseParts L = some qs) : ∀ q ∈ qs, 0 < q.den := by
  induction L generalizing qs with
  | nil =>
    simp only [parseParts, Option.some.injEq] at h
    subst h
    simp
  | cons p ps ih =>
    simp only [parseParts] at h
    split at h
    case h_1 q qs' hq hqs =>
      simp only [Option.some.injEq] at h
      subst h
      intro r hr
      rcases List.mem_cons.1 hr with rfl | hr
      · exact parseDecL_den_pos hq
      · exact ih hqs r hr
    case h_2 => exact absurd h (by simp)

/-! ## Coordinate normalizer (`ra_dec_check`, scheduling.py lines 546-592) -/

/-- Inner helper `hms_to_hours`: `parts = list(map(float, hms.split(":")))`,
then `parts[0] + parts[1]/60 + (parts[2]/3600 if len(parts) > 2 else 0)`.
Every colon-separated part must parse (the `map` is eager); fewer than two
parts is an index error, modelled as `none`. -/
def hms_to_hours (s : String) : Option PyFloat :=
  match parseParts (splitOnChar ':' s.data) with
  | some (p0 :: p1 :: rest) =>
    some ((p0.add (p1.divN 60)).add
      (match rest with | p2 :: _ => p2.divN 3600 | [] => PyFloat.ofNat 0))
  | _ => none

/-- Inner helper `dms_to_degrees`: sign taken from `parts[0] < 0`, magnitude
from `abs(parts[0]) + parts[1]/60 + (parts[2]/3600 if len(parts) > 2 else 0)`. -/
def dms_to_degrees (s : String) : Option PyFloat :=
  match parseParts (splitOnChar ':' s.data) with
  | some (p0 :: p1 :: rest) =>
    let mag := (p0.pabs.add (p1.divN 60)).add
      (match rest with | p2 :: _ => p2.divN 3600 | [] => PyFloat.ofNat 0)
    some (if p0.blt (PyFloat.ofNat 0) then mag.neg else mag)
  | _ => none

/-- RA branch of `ra_dec_check`: sexagesimal if the string contains a colon,
otherwise decimal degrees divided by 15. -/
def parseRaPart (ra : String) : Option PyFloat :=
  if containsChar ':' ra.data then hms_to_hours ra
  else (parseDec ra).map (·.divN 15)

/-- Dec branch of `ra_dec_check`: sexagesimal if the string contains a colon,
otherwise already decimal degrees. -/
def parseDecPart (dec : String) : Option PyFloat :=
  if containsChar ':' dec.data then dms_to_degrees dec
  else parseDec dec

/-- Errors raised by `ra_dec_check`.  In Python both are `ValueError`; they are
distinguishable by message: `parseError` is a failure of `float()` inside the
parsing helpers, `rangeError` is one of the two explicit range checks
(`"RA must be between 0 and 24 hours"`, `"Dec must be between -90 and 90 degrees"`). -/
inductive RaDecErr where
  | parseError
  | rangeError
  deriving DecidableEq, Repr

/-- `ra_dec_check(ra, dec)`: parse RA (sexagesimal hours, or decimal degrees
divided by 15), parse Dec (sexagesimal or decimal degrees), then validate
`0 <= ra_hours < 24` and `-90 <= dec_degrees <= 90`. -/
def ra_dec_check (ra dec : String) : Except RaDecErr (PyFloat × PyFloat) :=
  match parseRaPart ra with
  | none => .error .parseError
  | some ra_hours =>
    match parseDecPart dec with
    | none => .error .parseError
    | some dec_degrees =>
      if !((PyFloat.ofNat 0).ble ra_hours && ra_hours.blt (PyFloat.ofNat 24)) then
        .error .rangeError
      else if !(((PyFloat.ofNat 90).neg.ble dec_degrees
          && dec_degrees.ble (PyFloat.ofNat 90))) then
        .error .rangeError
      else .ok (ra_hours, dec_degrees)

example : parseDec "15" = some (PyFloat.mk 15 1) := rfl
example : parseDec "-0.5" = some (PyFloat.mk (-5) 10) := rfl
example : hms_to_hours "00:42:44" = some (PyFloat.mk 153840 216000) := rfl
example : ra_dec_check "15" "0" = .ok (PyFloat.mk 15 15, PyFloat.mk 0 1) := rfl
example : ra_dec_check "25:00:00" "0" = .error .rangeError := rfl
example : ra_dec_check "1" "0" = .ok (PyFloat.mk 1 15, PyFloat.mk 0 1) := rfl
example : dms_to_degrees "-41:16:09" = some (PyFloat.mk (-8914140) 216000) := rfl

/-! ## The observations table -/

/-- A sqlite value stored in one of the `ra`/`dec` columns: either the raw
text bound by a caller, or a Python float (which sqlite's TEXT affinity
would render as text; no settled claim depends on that rendering, because
the only code path that binds a float — the insert in
`add_observation_request` — is unreachable, see `batch_idgen`). -/
inductive SqlVal where
  | text (s : String)
  | real (f : PyFloat)
  deriving DecidableEq, Repr

/-- One row of the `observations` table (schema in
`create_observation_requests_table`, scheduling.py lines 67-97).
`readout`, `successive_block` and `submitted_on` are never read or written
by the embedded operations and are omitted. -/
structure ObsRow where
  request_id : Nat := 0
  observer_code : String := ""
  target_name : Option String := none
  batch_id : Option String := none
  ra : SqlVal := .text ""
  dec : SqlVal := .text ""
  observation_type : String := "default"
  filters : Option String := none
  priority : String := "normal"
  status : String := "pending"
  nexp : Int := 1
  exposure_time : Int := 1
  reposition : Int := 0
  reposition_x : Int := 1024
  reposition_y : Int := 1024
  cadence : Option String := none
  utc_start_time : Option String := none
  utc_start_date : Option String := none
  utc_end_time : Option String := none
  utc_end_date : Option String := none
  lst_start_time : Option String := none
  lst_start_date : Option String := none
  lst_end_time : Option String := none
  lst_end_date : Option String := none
  deriving DecidableEq, Repr

/-- The keyword arguments accepted by `add_observation_request` /
`is_duplicate_request`.  A `none` field models an absent dictionary key. -/
structure Kwargs where
  ra : Option String := none
  dec : Option String := none
  target_name : Option String := none
  observation_type : Option String := none
  filters : Option String := none
  nexp : Option Int := none
  exposure_time : Option Int := none
  priority : Option String := none
  status : Option String := none
  reposition : Option Bool := none
  reposition_x : Option Int := none
  reposition_y : Option Int := none
  batch_id : Option String := none
  cadence : Option String := none
  utc_start_time : Option String := none
  utc_start_date : Option String := none
  utc_end_time : Option String := none
  utc_end_date : Option String := none
  lst_start_time : Option String := none
  lst_start_date : Option String := none
  lst_end_time : Option String := none
  lst_end_date : Option String := none
  deriving DecidableEq, Repr

/-- Result of `params = {**DEFAULT_VALUES, **kwargs}` for the keys that
`DEFAULT_VALUES` (scheduling.py lines 13-33) provides.  `ra`, `dec` and
`batch_id` have no default and are handled at the use sites. -/
structure MergedParams where
  target_name : Option String
  observation_type : String
  filters : Option String
  nexp : Int
  exposure_time : Int
  priority : String
  status : String
  reposition : Bool
  reposition_x : Int
  reposition_y : Int
  cadence : Option String
  utc_start_time : Option String
  utc_start_date : Option String
  utc_end_time : Option String
  utc_end_date : Option String
  lst_start_time : Option String
  lst_start_date : Option String
  lst_end_time : Option String
  lst_end_date : Option String
  deriving DecidableEq, Repr

/-- `{**DEFAULT_VALUES, **kwargs}` (scheduling.py line 271): a key present in
`kwargs` wins, otherwise the `DEFAULT_VALUES` entry survives.  In particular
`DEFAULT_VALUES["target_name"]` is `None`, so an absent `target_name` merges
to `None`, not to a generated name. -/
def mergeDefaults (kw : Kwargs) : MergedParams where
  target_name := kw.target_name
  observation_type := kw.observation_type.getD "default"
  filters := kw.filters
  nexp := kw.nexp.getD 1
  exposure_time := kw.exposure_time.getD 1
  priority := kw.priority.getD "normal"
  status := kw.status.getD "pending"
  reposition := kw.reposition.getD false
  reposition_x := kw.reposition_x.getD 1024
  reposition_y := kw.reposition_y.getD 1024
  cadence := kw.cadence
  utc_start_time := kw.utc_start_time
  utc_start_date := kw.utc_start_date
  utc_end_time := kw.utc_end_time
  utc_end_date := kw.utc_end_date
  lst_start_time := kw.lst_start_time
  lst_start_date := kw.lst_start_date
  lst_end_time := kw.lst_end_time
  lst_end_date := kw.lst_end_date

/-- Python exception kinds raised by the embedded code. -/
inductive PyErr where
  | valueError
  | keyError
  | typeError
  | operationalError
  | integrityError
  deriving DecidableEq, Repr

/-! ## SQL comparison semantics -/

/-- SQL `col = v` for a nullable column against a non-NULL text parameter:
a NULL column never compares true. -/
def sqlEqOpt (col : Option String) (v : String) : Bool :=
  col == some v

/-- SQL `col = v` where both the column and the bound parameter may be NULL
(the `filters = ?` conjunct): if either side is NULL the comparison is not
true, so two NULLs do not match. -/
def sqlEqOptOpt (col v : Option String) : Bool :=
  match col, v with
  | some c, some w => c == w
  | _, _ => false

/-- SQL `(col IS v OR col = v)` (the cadence and time/date conjuncts):
`IS` is NULL-safe equality, so this is true exactly when both sides are
NULL or both are equal text; the `=` disjunct adds nothing. -/
def sqlIsOrEq (col v : Option String) : Bool :=
  (col == v) || sqlEqOptOpt col v

/-! ## Duplicate detector (`is_duplicate_request`, scheduling.py lines 101-156) -/

/-- `is_duplicate_request(cursor, observer_code, **kwargs)`: counts stored
rows equal to the candidate on the full field tuple and returns `count > 0`.
`kwargs["ra"]`, `kwargs["dec"]`, `kwargs["nexp"]` and
`kwargs["exposure_time"]` are accessed with subscripts, so their absence is
a `KeyError`; every other field is read with `.get` and a default. -/
def is_duplicate_request (db : List ObsRow) (observer_code : String) (kw : Kwargs) :
    Except PyErr Bool :=
  match kw.ra, kw.dec, kw.nexp, kw.exposure_time with
  | some ra, some dec, some nexp, some exposure_time =>
    let target_name := kw.target_name.getD ("J2000-" ++ ra ++ dec)
    let observation_type := kw.observation_type.getD "default"
    let priority := kw.priority.getD "normal"
    let status := kw.status.getD "pending"
    let reposition : Int := if kw.reposition.getD false then 1 else 0
    let reposition_x := kw.reposition_x.getD 1024
    let reposition_y := kw.reposition_y.getD 1024
    .ok (db.any (fun r =>
      r.observer_code == observer_code && r.ra == .text ra && r.dec == .text dec
        && sqlEqOpt r.target_name target_name
        && r.observation_type == observation_type
        && sqlEqOptOpt r.filters kw.filters
        && r.nexp == nexp && r.exposure_time == exposure_time
        && r.priority == priority && r.status == status
        && r.reposition == reposition
        && r.reposition_x == reposition_x && r.reposition_y == reposition_y
        && sqlIsOrEq r.cadence kw.cadence
        && sqlIsOrEq r.utc_start_time kw.utc_start_time
        && sqlIsOrEq r.utc_start_date kw.utc_start_date
        && sqlIsOrEq r.utc_end_time kw.utc_end_time
        && sqlIsOrEq r.utc_end_date kw.utc_end_date
        && sqlIsOrEq r.lst_start_time kw.lst_start_time
        && sqlIsOrEq r.lst_start_date kw.lst_start_date
        && sqlIsOrEq r.lst_end_time kw.lst_end_time
        && sqlIsOrEq r.lst_end_date kw.lst_end_date))
  | _, _, _, _ => .error .keyError

/-! ## Batch identifier allocator (`batch_idgen`, scheduling.py lines 594-604) -/

/-- The exact text handed to `cursor.execute` by `batch_idgen`.  The Python
source writes four quotation marks (`""""` …), so the statement text begins
with a stray double-quote character before the newline and `SELECT`. -/
def batch_idgen_query : String :=
  "\"\n        SELECT batch_id FROM observations ORDER BY batch_id DESC LIMIT 1;"

/-- A sqlite statement is executable only when it begins, after whitespace,
with a statement keyword; a statement whose first character is a double
quote opens a quoted identifier (here also unterminated), which sqlite
rejects with `sqlite3.OperationalError`.  Only the statement forms used in
this repository are modelled. -/
def sqlStatementOk (q : String) : Bool :=
  ["SELECT", "INSERT", "UPDATE", "DELETE", "CREATE"].any
    (fun kw => beginsWith kw.data (stripWS q.data))

/-- `batch_idgen()`: executes `batch_idgen_query` and, were a row returned,
would evaluate `last_batch_id + 1` on the fetched row *tuple* (a
`TypeError`), returning `1` only when `fetchone()` is `None`.  The execute
itself fails with `OperationalError` because the statement text is
malformed (when `scheduling` is imported as a module the global
`connection` is not even bound, a `NameError`; either way the call raises). -/
def batch_idgen (db : List ObsRow) : Except PyErr Int :=
  if sqlStatementOk batch_idgen_query then
    if db.isEmpty then .ok 1 else .error .typeError
  else .error .operationalError

/-! ## Request store: insert (`add_observation_request`, scheduling.py lines 158-302) -/

/-- The row bound by the `INSERT INTO observations …` statement of
`add_observation_request` (scheduling.py lines 285-298). -/
def insertedRow (rid : Nat) (observer_code : String) (params : MergedParams)
    (tn : String) (batch_id : String) (ra_hours dec_degrees : PyFloat) : ObsRow where
  request_id := rid
  observer_code := observer_code
  target_name := some tn
  batch_id := some batch_id
  ra := .real ra_hours
  dec := .real dec_degrees
  observation_type := params.observation_type
  filters := params.filters
  priority := params.priority
  status := params.status
  nexp := params.nexp
  exposure_time := params.exposure_time
  reposition := if params.reposition then 1 else 0
  reposition_x := params.reposition_x
  reposition_y := params.reposition_y
  cadence := params.cadence
  utc_start_time := params.utc_start_time
  utc_start_date := params.utc_start_date
  utc_end_time := params.utc_end_time
  utc_end_date := params.utc_end_date
  lst_start_time := params.lst_start_time
  lst_start_date := params.lst_start_date
  lst_end_time := params.lst_end_time
  lst_end_date := params.lst_end_date

/-- `add_observation_request(cursor, session, **kwargs)`, returning the
Python return value (`1` inserted, `0` duplicate, or a raised exception)
together with the resulting table.  The session dictionary is a keyed list;
`none` or an empty list is falsy.  `kwargs.get("batch_id", batch_idgen())`
evaluates its default argument eagerly, so `batch_idgen()` runs — and
raises — on every call that reaches it. -/
def add_observation_request (db : List ObsRow)
    (session : Option (List (String × String))) (kw : Kwargs) :
    Except PyErr Int × List ObsRow :=
  match session with
  | none => (.error .valueError, db)
  | some kvs =>
    match kvs.lookup "observer_code" with
    | none => (.error .valueError, db)
    | some observer_code =>
      let params := mergeDefaults kw
      match kw.ra, kw.dec with
      | some ra, some dec =>
        match ra_dec_check ra dec with
        | .error _ => (.error .valueError, db)
        | .ok (ra_hours, dec_degrees) =>
          match is_duplicate_request db observer_code kw with
          | .error e => (.error e, db)
          | .ok true => (.ok 0, db)
          | .ok false =>
            match batch_idgen db with
            | .error e => (.error e, db)
            | .ok gen =>
              let batch_id := kw.batch_id.getD (toString gen)
              match params.target_name with
              | none => (.error .integrityError, db)
              | some tn =>
                (.ok 1, db ++ [insertedRow (db.length + 1) observer_code params
                  tn batch_id ra_hours dec_degrees])
      | _, _ => (.error .keyError, db)

/-! ## Request store: edit (`edit_observation_request`, scheduling.py lines 378-429) -/

/-- A partial update: a `some` field is a key in the `kwargs` of
`edit_observation_request`.  Only valid column names are modelled (an
invalid key would make the dynamically built SQL fail, which the function
catches and logs without raising). -/
structure Update where
  target_name : Option String := none
  ra : Option String := none
  dec : Option String := none
  observation_type : Option String := none
  filters : Option String := none
  nexp : Option Int := none
  exposure_time : Option Int := none
  priority : Option String := none
  status : Option String := none
  cadence : Option String := none
  deriving DecidableEq, Repr

/-- Python `if not kwargs` — the update dictionary has no keys. -/
def Update.isEmpty (u : Update) : Bool :=
  u.target_name == none && u.ra == none && u.dec == none
    && u.observation_type == none && u.filters == none && u.nexp == none
    && u.exposure_time == none && u.priority == none && u.status == none
    && u.cadence == none

/-- Effect of the generated `SET` clause on one row. -/
def applyUpdate (u : Update) (r : ObsRow) : ObsRow :=
  { r with
    target_name := (match u.target_name with | some v => some v | none => r.target_name),
    ra := (match u.ra with | some v => .text v | none => r.ra),
    dec := (match u.dec with | some v => .text v | none => r.dec),
    observation_type := u.observation_type.getD r.observation_type,
    filters := (match u.filters with | some v => some v | none => r.filters),
    nexp := u.nexp.getD r.nexp,
    exposure_time := u.exposure_time.getD r.exposure_time,
    priority := u.priority.getD r.priority,
    status := u.status.getD r.status,
    cadence := (match u.cadence with | some v => some v | none => r.cadence) }

/-- Modelled from the spec: the error taxonomy names a `NotFoundError` for
edits whose `request_id` matches no row (spec §4.4, §7).  No code under
`src/` defines or raises it; the constructor exists so that its absence
from the implementation is statable. -/
inductive EditErr where
  | notFoundError
  deriving DecidableEq, Repr

/-- `edit_observation_request(connection, request_id, **kwargs)`: an empty
update dictionary returns immediately; otherwise `UPDATE observations SET …
WHERE request_id = ?` is executed and committed.  The row count is never
inspected, so no error is raised for an id that matches nothing. -/
def edit_observation_request (db : List ObsRow) (request_id : Nat) (u : Update) :
    Except EditErr (List ObsRow) :=
  if u.isEmpty then .ok db
  else .ok (db.map (fun r => if r.request_id == request_id then applyUpdate u r else r))

/-! ## Session manager (`user_db.py`) -/

/-- One row of the `sessions` table (`create_sessions_table`, user_db.py
lines 28-37).  Timestamps are modelled as integers with the usual order. -/
structure SessionRow where
  session_id : String
  user_id : Int
  observer_code : String := ""
  created_at : Int := 0
  expires_at : Int
  deriving DecidableEq, Repr

/-- `validate_session(connection, session_id)` (user_db.py lines 90-126):
`SELECT user_id FROM sessions WHERE session_id = ? AND expires_at >
CURRENT_TIMESTAMP`, returning the fetched user id or `None`. -/
def validate_session (db : List SessionRow) (token : String) (now : Int) : Option Int :=
  (db.find? (fun r => r.session_id == token && decide (now < r.expires_at))).map
    (·.user_id)

/-- `end_session(connection, session_id)` (user_db.py lines 129-156):
`DELETE FROM sessions WHERE session_id = ?`, unconditionally. -/
def end_session (db : List SessionRow) (token : String) : List SessionRow :=
  db.filter (fun r => r.session_id != token)

/-! ## Schedule file parser, line-oriented branch
(`parse_schedule_file`, scheduling.py lines 491-544, `.sch`/`.txt` case) -/

/-- The recognized `key value` pairs of an observation line
(scheduling.py line 520). -/
def scheduleKeys : List String :=
  ["ra", "dec", "nexp", "exposure_time", "filters", "readout", "cadence", "utstart"]

/-- The fields collected from one observation line before validation. -/
structure LineDict where
  ra : Option String := none
  dec : Option String := none
  nexp : Option String := none
  exposure_time : Option String := none
  filters : Option String := none
  readout : Option String := none
  cadence : Option String := none
  utstart : Option String := none
  deriving DecidableEq, Repr

/-- `obs[key] = value` for a recognized key. -/
def setKey (d : LineDict) (k v : String) : LineDict :=
  if k == "ra" then { d with ra := some v }
  else if k == "dec" then { d with dec := some v }
  else if k == "nexp" then { d with nexp := some v }
  else if k == "exposure_time" then { d with exposure_time := some v }
  else if k == "filters" then { d with filters := some v }
  else if k == "readout" then { d with readout := some v }
  else if k == "cadence" then { d with cadence := some v }
  else if k == "utstart" then { d with utstart := some v }
  else d

/-- The `for i, param in enumerate(params)` loop (scheduling.py lines
519-528), walking every whitespace token.  A recognized key reads
`params[i + 1]` (an `IndexError` when the key is the last token, which
aborts the line); a `group` token evaluates
`batch_idgen() + group_num`, and `batch_idgen()` always raises (unbound
global `connection` / malformed statement — see `batch_idgen`), so a
`group` token also aborts the line.  `.error` is any raised exception,
caught by the per-line handler. -/
def collectKV : List String → Except Unit (List (String × String))
  | [] => .ok []
  | t :: rest =>
    if scheduleKeys.contains t then
      match rest with
      | [] => .error ()
      | v :: _ =>
        match collectKV rest with
        | .ok tl => .ok ((t, v) :: tl)
        | .error e => .error e
    else if t == "group" then .error ()
    else collectKV rest

/-- A parsed observation record, the parser's output unit.  A successfully
parsed line never carries a `batch_id` (the `group` path always raises). -/
structure ParsedObs where
  target_name : String
  ra : String
  dec : String
  nexp : Int
  exposure_time : Int
  filters : Option String := none
  readout : Option String := none
  cadence : Option String := none
  utstart : Option String := none
  deriving DecidableEq, Repr

/-- Whether a (stripped) line starts a new observation (scheduling.py
line 510). -/
def isObsHeader (l : List Char) : Bool :=
  beginsWith "source".data l || beginsWith "target".data l
    || beginsWith "target_name".data l

/-- Steps 1-3 of an observation line: `parts = line.split('"')`,
`target_name = parts[1] if len(parts) > 1 else None` (an absent or empty
quoted name raises), then the token walk `collectKV` builds the field
dictionary (later assignments to the same key win, as in a dict). -/
def lineFields (l : List Char) : Option (String × LineDict) :=
  match (splitOnChar '"' l).get? 1 with
  | none => none
  | some tn =>
    if tn.isEmpty then none
    else
      match collectKV ((splitWhitespace l).map String.mk) with
      | .error _ => none
      | .ok kvs =>
        some (String.mk tn, kvs.foldl (fun d kv => setKey d kv.1 kv.2) {})

/-- Steps 4-6: `{"ra", "dec"}.issubset(obs)` must hold, then
`obs["nexp"] = int(obs.get("nexp", 1))` and the same for `exposure_time`
(an absent key defaults to the integer 1 without string parsing). -/
def recordOf (tn : String) (d : LineDict) : Option ParsedObs :=
  match d.ra, d.dec with
  | some ra, some dec =>
    match (match d.nexp with | none => some (1 : Int) | some s => parsePyInt s),
          (match d.exposure_time with | none => some (1 : Int) | some s => parsePyInt s) with
    | some n, some e =>
      some { target_name := tn, ra := ra, dec := dec, nexp := n, exposure_time := e,
             filters := d.filters, readout := d.readout, cadence := d.cadence,
             utstart := d.utstart }
    | _, _ => none
  | _, _ => none

/-- Processing of one line of a `.sch`/`.txt` file: strip, skip blank and
`#` lines, skip lines that do not start an observation, and otherwise run
the guarded per-line parse whose failures are logged and skipped
(`none`). -/
def processLine (line0 : String) : Option ParsedObs :=
  if (stripWS line0.data).isEmpty then none
  else if beginsWith "#".data (stripWS line0.data) then none
  else if isObsHeader (stripWS line0.data) then
    match lineFields (stripWS line0.data) with
    | none => none
    | some td => recordOf td.1 td.2
  else none

/-- `parse_schedule_file` raises `ValueError("No valid observations found
in the file.")` when nothing parsed. -/
inductive ParseErr where
  | emptyFile
  deriving DecidableEq, Repr

/-- The `.sch`/`.txt` branch of `parse_schedule_file` over the file's
lines, plus the final empty-result check (scheduling.py lines 542-543). -/
def parse_schedule_file (lines : List String) : Except ParseErr (List ParsedObs) :=
  let observations := lines.filterMap processLine
  if observations.isEmpty then .error .emptyFile else .ok observations

/-! ## Supporting lemmas -/

theorem parseDec_den_pos {s : String} {f : PyFloat}
    (h : parseDec s = some f) : 0 < f.den :=
  parseDecL_den_pos h

theorem hms_to_hours_den_pos {s : String} {f : PyFloat}
    (h : hms_to_hours s = some f) : 0 < f.den := by
  unfold hms_to_hours at h
  split at h
  case h_1 p0 p1 rest heq =>
    have hall := parseParts_den_pos heq
    have hp0 : 0 < p0.den := hall p0 (by simp)
    have hp1 : 0 < p1.den := hall p1 (by simp)
    simp only [Option.some.injEq] at h
    subst h
    cases rest with
    | nil =>
      simp only [PyFloat.add, PyFloat.divN, PyFloat.ofNat]
      positivity
    | cons p2 rest2 =>
      have hp2 : 0 < p2.den := hall p2 (by simp)
      simp only [PyFloat.add, PyFloat.divN]
      positivity
  case h_2 => exact absurd h (by simp)

theorem dms_to_degrees_den_pos {s : String} {f : PyFloat}
    (h : dms_to_degrees s = some f) : 0 < f.den := by
  unfold dms_to_degrees at h
  split at h
  case h_1 p0 p1 rest heq =>
    have hall := parseParts_den_pos heq
    have hp0 : 0 < p0.den := hall p0 (by simp)
    have hp1 : 0 < p1.den := hall p1 (by simp)
    simp only [Option.some.injEq] at h
    subst h
    split
    all_goals cases rest with
      | nil =>
        simp only [PyFloat.add, PyFloat.divN, PyFloat.ofNat, PyFloat.pabs, PyFloat.neg]
        positivity
      | cons p2 rest2 =>
        have hp2 : 0 < p2.den := hall p2 (by simp)
        simp only [PyFloat.add, PyFloat.divN, PyFloat.pabs, PyFloat.neg]
        positivity
  case h_2 => exact absurd h (by simp)

theorem parseRaPart_den_pos {ra : String} {f : PyFloat}
    (h : parseRaPart ra = some f) : 0 < f.den := by
  unfold parseRaPart at h
  split at h
  · exact hms_to_hours_den_pos h
  · rw [Option.map_eq_some'] at h
    obtain ⟨g, hg, rfl⟩ := h
    have := parseDec_den_pos hg
    simp only [PyFloat.divN]
    positivity

theorem parseDecPart_den_pos {dec : String} {f : PyFloat}
    (h : parseDecPart dec = some f) : 0 < f.den := by
  unfold parseDecPart at h
  split at h
  · exact dms_to_degrees_den_pos h
  · exact parseDec_den_pos h

/-- The boolean RA range test of `ra_dec_check` is the rational condition
`0 ≤ ra_hours < 24`. -/
theorem raCond_iff {f : PyFloat} (hf : 0 < f.den) :
    ((PyFloat.ofNat 0).ble f && f.blt (PyFloat.ofNat 24)) = true ↔
      0 ≤ f.toRat ∧ f.toRat < 24 := by
  rw [Bool.and_eq_true,
    PyFloat.ble_iff_toRat (by simp [PyFloat.ofNat]) hf,
    PyFloat.blt_iff_toRat hf (by simp [PyFloat.ofNat]),
    PyFloat.toRat_ofNat, PyFloat.toRat_ofNat]
  norm_num

/-- The boolean Dec range test of `ra_dec_check` is the rational condition
`-90 ≤ dec_degrees ≤ 90`. -/
theorem decCond_iff {g : PyFloat} (hg : 0 < g.den) :
    ((PyFloat.ofNat 90).neg.ble g && g.ble (PyFloat.ofNat 90)) = true ↔
      -90 ≤ g.toRat ∧ g.toRat ≤ 90 := by
  rw [Bool.and_eq_true,
    PyFloat.ble_iff_toRat (by simp [PyFloat.ofNat, PyFloat.neg]) hg,
    PyFloat.ble_iff_toRat hg (by simp [PyFloat.ofNat]),
    PyFloat.toRat_neg, PyFloat.toRat_ofNat]
  norm_num

/-- Reduction of `ra_dec_check` once both coordinate strings parse. -/
theorem ra_dec_check_eq (ra dec : String) (f g : PyFloat)
    (hra : parseRaPart ra = some f) (hdec : parseDecPart dec = some g) :
    ra_dec_check ra dec =
      if (PyFloat.ofNat 0).ble f && f.blt (PyFloat.ofNat 24) then
        (if (PyFloat.ofNat 90).neg.ble g && g.ble (PyFloat.ofNat 90) then .ok (f, g)
         else .error .rangeError)
      else .error .rangeError := by
  unfold ra_dec_check
  rw [hra, hdec]
  cases h1 : (PyFloat.ofNat 0).ble f && f.blt (PyFloat.ofNat 24) <;>
    cases h2 : (PyFloat.ofNat 90).neg.ble g && g.ble (PyFloat.ofNat 90) <;>
    simp [h1, h2]

/-! ## Claim C4 -/

/-- C4, counterexample: `ra_dec_check` is not idempotent.  The valid decimal
input pair `("15", "0")` normalizes to the values `(1, 0)` (ra hours, dec
degrees); feeding the decimal rendering `("1", "0")` of that normalized pair
back through `ra_dec_check` returns ra `1/15 ≠ 1`, far outside floating
tolerance, because a colon-free RA string is always interpreted as degrees
and divided by 15. -/
theorem c4_counterexample :
    ra_dec_check "15" "0" = .ok (PyFloat.mk 15 15, PyFloat.mk 0 1) ∧
    (PyFloat.mk 15 15).toRat = 1 ∧ (PyFloat.mk 0 1).toRat = 0 ∧
    ra_dec_check "1" "0" = .ok (PyFloat.mk 1 15, PyFloat.mk 0 1) ∧
    (PyFloat.mk 1 15).toRat ≠ 1 := by
  refine ⟨rfl, by norm_num [PyFloat.toRat], by norm_num [PyFloat.toRat], rfl, ?_⟩
  norm_num [PyFloat.toRat]

/-- C4, amended: re-normalizing the decimal rendering of an
already-normalized pair is idempotent in the dec component but divides the
ra component by 15 again (a colon-free RA is treated as degrees), so the ra
component is preserved exactly when it is zero.  `sh`/`sd` are any
colon-free renderings that parse back to the normalized values. -/
theorem c4_amended_renormalization (sh sd : String) (f g : PyFloat)
    (h1 : containsChar ':' sh.data = false) (h2 : containsChar ':' sd.data = false)
    (h3 : parseDec sh = some f) (h4 : parseDec sd = some g)
    (h5 : 0 ≤ f.toRat) (h6 : f.toRat < 360)
    (h7 : -90 ≤ g.toRat) (h8 : g.toRat ≤ 90) :
    ra_dec_check sh sd = .ok (f.divN 15, g) ∧
    (f.divN 15).toRat = f.toRat / 15 ∧
    ((f.divN 15).toRat = f.toRat ↔ f.toRat = 0) := by
  have hfden : 0 < f.den := parseDec_den_pos h3
  have hgden : 0 < g.den := parseDec_den_pos h4
  have hdiv : (f.divN 15).toRat = f.toRat / 15 :=
    PyFloat.toRat_divN hfden (by norm_num)
  have hra : parseRaPart sh = some (f.divN 15) := by
    unfold parseRaPart
    rw [h1]
    simp [h3]
  have hdec2 : parseDecPart sd = some g := by
    unfold parseDecPart
    rw [h2]
    simp [h4]
  refine ⟨?_, hdiv, ?_⟩
  · have hb1 : ((PyFloat.ofNat 0).ble (f.divN 15) && (f.divN 15).blt (PyFloat.ofNat 24))
        = true := by
      rw [raCond_iff (by simp only [PyFloat.divN]; positivity), hdiv]
      constructor
      · exact div_nonneg h5 (by norm_num)
      · rw [div_lt_iff (by norm_num : (0:ℚ) < 15)]
        linarith
    have hb2 : ((PyFloat.ofNat 90).neg.ble g && g.ble (PyFloat.ofNat 90)) = true := by
      rw [decCond_iff hgden]
      exact ⟨h7, h8⟩
    rw [ra_dec_check_eq sh sd (f.divN 15) g hra hdec2, hb1, hb2]
    simp
  · rw [hdiv]
    constructor
    · intro h
      field_simp at h
      linarith
    · intro h
      rw [h]
      norm_num

/-- C4, witness for the amended theorem at the concrete renormalized pair
`("15", "0") → (1, 0) → ("1", "0")` — here applied to the rendering
`("15", "0")` of the value pair `(15, 0)`. -/
theorem c4_amended_witness :
    ra_dec_check "15" "0" = .ok ((PyFloat.mk 15 1).divN 15, PyFloat.mk 0 1) ∧
    ((PyFloat.mk 15 1).divN 15).toRat = (PyFloat.mk 15 1).toRat / 15 ∧
    (((PyFloat.mk 15 1).divN 15).toRat = (PyFloat.mk 15 1).toRat ↔
      (PyFloat.mk 15 1).toRat = 0) :=
  c4_amended_renormalization "15" "0" (PyFloat.mk 15 1) (PyFloat.mk 0 1)
    rfl rfl rfl rfl
    (by norm_num [PyFloat.toRat]) (by norm_num [PyFloat.toRat])
    (by norm_num [PyFloat.toRat]) (by norm_num [PyFloat.toRat])

/-! ## Claim C5 -/

/-- C5: for every input pair whose two coordinate strings parse, the
normalizer raises a range error exactly when the computed `ra_hours` is
outside `[0, 24)` or the computed `dec_degrees` is outside `[-90, 90]`;
in particular `ra_dec_check "25:00:00" "0"` raises a range error. -/
theorem c5_range_error_iff (ra dec : String) (f g : PyFloat)
    (hra : parseRaPart ra = some f) (hdec : parseDecPart dec = some g) :
    (ra_dec_check ra dec = .error .rangeError ↔
      ¬(0 ≤ f.toRat ∧ f.toRat < 24) ∨ ¬(-90 ≤ g.toRat ∧ g.toRat ≤ 90)) ∧
    ra_dec_check "25:00:00" "0" = .error .rangeError := by
  refine ⟨?_, rfl⟩
  have hf := parseRaPart_den_pos hra
  have hg := parseDecPart_den_pos hdec
  rw [ra_dec_check_eq ra dec f g hra hdec]
  cases hb1 : (PyFloat.ofNat 0).ble f && f.blt (PyFloat.ofNat 24) with
  | false =>
    simp only [hb1, Bool.false_eq_true, if_false]
    constructor
    · intro _
      left
      intro hc
      rw [← raCond_iff hf, hb1] at hc
      cases hc
    · intro _
      trivial
  | true =>
    cases hb2 : (PyFloat.ofNat 90).neg.ble g && g.ble (PyFloat.ofNat 90) with
    | false =>
      simp only [hb1, hb2, if_true, Bool.false_eq_true, if_false]
      constructor
      · intro _
        right
        intro hc
        rw [← decCond_iff hg, hb2] at hc
        cases hc
      · intro _
        trivial
    | true =>
      simp only [hb1, hb2, if_true]
      constructor
      · intro hcontra
        simp at hcontra
      · rintro (hc | hc)
        · exact absurd ((raCond_iff hf).mp hb1) hc
        · exact absurd ((decCond_iff hg).mp hb2) hc

/-- C5, witness at `("25:00:00", "0")`, whose ra parses to 25 hours. -/
theorem c5_range_error_iff_witness :
    (ra_dec_check "25:00:00" "0" = .error .rangeError ↔
      ¬(0 ≤ (PyFloat.mk 5400000 216000).toRat ∧ (PyFloat.mk 5400000 216000).toRat < 24) ∨
      ¬(-90 ≤ (PyFloat.mk 0 1).toRat ∧ (PyFloat.mk 0 1).toRat ≤ 90)) ∧
    ra_dec_check "25:00:00" "0" = .error .rangeError :=
  c5_range_error_iff "25:00:00" "0" (PyFloat.mk 5400000 216000) (PyFloat.mk 0 1) rfl rfl

/-! ## Claim C1 -/

/-- A well-formed session dictionary. -/
def c1Session : Option (List (String × String)) := some [("observer_code", "irm")]

/-- A complete request tuple (the fields the duplicate detector reads with
subscripts are all present). -/
def c1Kwargs : Kwargs :=
  { ra := some "10:00:00", dec := some "20:00:00", target_name := some "T1",
    nexp := some 1, exposure_time := some 1 }

/-- C1: the claimed twice-submission behavior (first call `Inserted`-1 and
one row, second call `Duplicate`-0) does not occur.  Both calls raise: a
non-duplicate request always reaches
`kwargs.get("batch_id", batch_idgen())`, whose default argument is
evaluated eagerly, and `batch_idgen` raises on every call, so the first
submission already fails with an `OperationalError` and inserts nothing —
and consequently no row with the tuple ever exists.  (Separately, the
duplicate check is run on the raw `kwargs` coordinates while the insert
would store the normalized `params` values, so the comparison the claim
describes is not over canonical values.) -/
theorem c1_resubmission_code_bug :
    add_observation_request [] c1Session c1Kwargs = (.error .operationalError, []) ∧
    add_observation_request
        (add_observation_request [] c1Session c1Kwargs).2 c1Session c1Kwargs
      = (.error .operationalError, []) :=
  ⟨rfl, rfl⟩

/-! ## Claim C2 -/

/-- A stored row with `batch_id = "5"`. -/
def c2Row : ObsRow :=
  { request_id := 1, observer_code := "irm", target_name := some "T",
    batch_id := some "5", ra := .text "1", dec := .text "2" }

/-- C2: `batch_idgen` never returns `1` on an empty table nor `max + 1`
afterwards; its statement text begins with a stray quotation mark, so the
execute fails with `OperationalError` on every call (and `connection` is
not even bound when the module is imported).  In particular, after a row
with `batch_id = 5` is present, the next call raises instead of
returning 6. -/
theorem c2_batch_idgen_code_bug :
    batch_idgen [] = .error .operationalError ∧
    batch_idgen [c2Row] = .error .operationalError ∧
    sqlStatementOk batch_idgen_query = false :=
  ⟨rfl, rfl, rfl⟩

/-! ## Claim C3 -/

/-- A candidate request with no `filters` value. -/
def c3Kwargs : Kwargs :=
  { ra := some "10:00:00", dec := some "20:00:00", target_name := some "M31",
    nexp := some 3, exposure_time := some 60 }

/-- A stored row identical to `c3Kwargs` on the full field tuple, with
`filters` NULL. -/
def c3Row : ObsRow :=
  { request_id := 1, observer_code := "irm", target_name := some "M31",
    ra := .text "10:00:00", dec := .text "20:00:00", nexp := 3, exposure_time := 60 }

/-- The same candidate and row with `filters` present on both sides. -/
def c3KwargsF : Kwargs := { c3Kwargs with filters := some "V" }

def c3RowF : ObsRow := { c3Row with filters := some "V" }

/-- C3: the duplicate detector does not use NULL-safe equality on
`filters`.  Against a stored row that matches the candidate exactly and has
`filters` NULL on both sides, it returns `false` (the claim requires
`true`): the query spells `filters = ?`, and in SQL `NULL = NULL` is not
true, unlike the `IS`-based conjuncts used for cadence and the eight
time/date fields.  With `filters` present and equal on both sides the same
detector returns `true`, isolating the defect to the NULL case. -/
theorem c3_filters_null_equality_code_bug :
    is_duplicate_request [c3Row] "irm" c3Kwargs = .ok false ∧
    is_duplicate_request [c3RowF] "irm" c3KwargsF = .ok true :=
  ⟨rfl, rfl⟩

/-! ## Claim C6 -/

/-- A non-empty update set. -/
def c6Update : Update := { status := some "scheduled" }

/-- A stored row to edit. -/
def c6Row : ObsRow :=
  { request_id := 1, observer_code := "irm", target_name := some "T",
    ra := .text "1", dec := .text "2" }

/-- C6, counterexample: an edit whose `request_id` matches no row (zero
rows affected) does not fail with `NotFoundError`; it returns normally with
the table unchanged, because the function never inspects the affected row
count. -/
theorem c6_counterexample :
    c6Update.isEmpty = false ∧
    edit_observation_request [] 1 c6Update = .ok [] ∧
    edit_observation_request [] 1 c6Update ≠ .error EditErr.notFoundError := by
  refine ⟨rfl, rfl, ?_⟩
  rw [show edit_observation_request [] 1 c6Update = .ok [] from rfl]
  simp

/-- C6, amended: an empty update set is a no-op that raises no error; a
`request_id` that matches no row also raises no error and leaves every row
unchanged (there is no `NotFoundError`); a matching `request_id` with a
non-empty update set applies the partial update to exactly the matching
row, leaving all others unchanged. -/
theorem c6_amended_edit_behavior (db : List ObsRow) (rid : Nat) (u : Update) :
    (u.isEmpty = true → edit_observation_request db rid u = .ok db) ∧
    ((∀ r ∈ db, r.request_id ≠ rid) → edit_observation_request db rid u = .ok db) ∧
    edit_observation_request db rid u =
      .ok (if u.isEmpty then db
           else db.map (fun r => if r.request_id == rid then applyUpdate u r else r)) := by
  refine ⟨?_, ?_, ?_⟩
  · intro h
    simp [edit_observation_request, h]
  · intro h
    unfold edit_observation_request
    cases hu : u.isEmpty with
    | true => simp
    | false =>
      simp only [Bool.false_eq_true, if_false, Except.ok.injEq]
      have hmap : db.map (fun r => if r.request_id == rid then applyUpdate u r else r)
          = db.map id := by
        apply List.map_congr_left
        intro r hr
        simp [h r hr]
      rw [hmap, List.map_id]
  · unfold edit_observation_request
    cases hu : u.isEmpty <;> simp

/-- C6, witness: editing the row with id 1 applies the update to it, and
editing with the unmatched id 99 changes nothing and raises nothing. -/
theorem c6_amended_witness :
    edit_observation_request [c6Row] 99 c6Update = .ok [c6Row] ∧
    edit_observation_request [c6Row] 1 c6Update =
      .ok [{ c6Row with status := "scheduled" }] := by
  constructor
  · exact (c6_amended_edit_behavior [c6Row] 99 c6Update).2.1 (by decide)
  · rw [(c6_amended_edit_behavior [c6Row] 1 c6Update).2.2]
    rfl

/-! ## Claim C7 -/

/-- The record-building step fails — and the line is therefore skipped —
whenever `ra` or `dec` is missing from the collected fields, or `nexp` /
`exposure_time` fail integer parsing. -/
theorem recordOf_eq_none {tn : String} {d : LineDict}
    (hbad : d.ra = none ∨ d.dec = none ∨
      (∃ s, d.nexp = some s ∧ parsePyInt s = none) ∨
      (∃ s, d.exposure_time = some s ∧ parsePyInt s = none)) :
    recordOf tn d = none := by
  unfold recordOf
  rcases hbad with h | h | ⟨s, hs, hp⟩ | ⟨s, hs, hp⟩
  · rw [h]
  · cases d.ra <;> rw [h]
  · cases hra : d.ra with
    | none => rfl
    | some ra =>
      cases hde : d.dec with
      | none => rfl
      | some de =>
        simp only [hs, hp]
  · cases hra : d.ra with
    | none => rfl
    | some ra =>
      cases hde : d.dec with
      | none => rfl
      | some de =>
        cases hn : d.nexp with
        | none => simp only [hs, hp]
        | some s2 =>
          cases hpn : parsePyInt s2 with
          | none => simp only [hn, hpn]
          | some n => simp only [hn, hpn, hs, hp]

/-- The valid example line. -/
def c7ValidLine : String :=
  "target \"M31\" ra 00:42:44 dec +41:16:09 nexp 3 exposure_time 60"

/-- The malformed example line, missing `dec`. -/
def c7BadLine : String := "target \"M32\" ra 00:42:44 nexp 3 exposure_time 60"

/-- The record parsed from the valid line. -/
def c7Record : ParsedObs :=
  { target_name := "M31", ra := "00:42:44", dec := "+41:16:09", nexp := 3,
    exposure_time := 60 }

/-- The fields collected from the malformed line (no `dec`). -/
def c7BadDict : LineDict :=
  { ra := some "00:42:44", nexp := some "3", exposure_time := some "60" }

/-- C7: an observation line whose collected fields are missing `ra` or
`dec`, or whose `nexp`/`exposure_time` fail integer parsing, is skipped;
a skipped line leaves the parse of the remaining lines unchanged; and the
two-line example file (one valid `target "M31" …` line, one line missing
`dec`) yields exactly the one record of the valid line. -/
theorem c7_parser_skips_bad_lines :
    (∀ (line : String) (tn : String) (d : LineDict),
       lineFields (stripWS line.data) = some (tn, d) →
       (d.ra = none ∨ d.dec = none ∨
        (∃ s, d.nexp = some s ∧ parsePyInt s = none) ∨
        (∃ s, d.exposure_time = some s ∧ parsePyInt s = none)) →
       processLine line = none) ∧
    (∀ (pre suf : List String) (line : String), processLine line = none →
       (pre ++ line :: suf).filterMap processLine
         = (pre ++ suf).filterMap processLine) ∧
    parse_schedule_file [c7ValidLine, c7BadLine] = .ok [c7Record] := by
  refine ⟨?_, ?_, rfl⟩
  · intro line tn d hlf hbad
    unfold processLine
    split
    · rfl
    · split
      · rfl
      · split
        · rw [hlf]
          exact recordOf_eq_none hbad
        · rfl
  · intro pre suf line h
    simp [List.filterMap_append, List.filterMap_cons, h]

/-- C7, witness: the malformed line is skipped (its fields lack `dec`), and
dropping it from a file leaves the parse of the other lines unchanged. -/
theorem c7_parser_witness :
    processLine c7BadLine = none ∧
    List.filterMap processLine ([c7ValidLine] ++ c7BadLine :: []) =
      List.filterMap processLine ([c7ValidLine] ++ []) := by
  have h1 := c7_parser_skips_bad_lines.1 c7BadLine "M32" c7BadDict rfl
    (Or.inr (Or.inl rfl))
  exact ⟨h1, c7_parser_skips_bad_lines.2.1 [c7ValidLine] [] c7BadLine h1⟩

/-! ## Claim C8 -/

/-- A request whose input fields do not include `target_name`. -/
def c8Kwargs : Kwargs :=
  { ra := some "10:00:00", dec := some "20:00:00",
    nexp := some 1, exposure_time := some 1 }

/-- C8: when `target_name` is absent, no inserted row ever gets the
generated default `J2000-{ra}{dec}`.  The `DEFAULT_VALUES` merge maps an
absent `target_name` to `None` (the generated name exists only inside the
duplicate-check parameters), and the call raises before the insert anyway
(`batch_idgen`), leaving the table unchanged — so there is no successful
insert, and the value that would be bound is NULL, which the `NOT NULL`
column would reject, never the generated name. -/
theorem c8_target_name_default_code_bug :
    (mergeDefaults c8Kwargs).target_name = none ∧
    c8Kwargs.target_name = none ∧
    add_observation_request [] c1Session c8Kwargs = (.error .operationalError, []) :=
  ⟨rfl, rfl, rfl⟩

/-! ## Claim C10 -/

/-- C10: a `None`/empty session dictionary, or one without the key
`observer_code`, makes `add_observation_request` raise `ValueError` before
coordinate validation, duplicate checking or any insert — for every
database state and every keyword set (even one with invalid or missing
coordinates), and the table is returned unchanged. -/
theorem c10_invalid_session_rejected (db : List ObsRow)
    (session : Option (List (String × String))) (kw : Kwargs)
    (h : session = none ∨
      ∃ kvs, session = some kvs ∧ kvs.lookup "observer_code" = none) :
    add_observation_request db session kw = (.error .valueError, db) := by
  rcases h with rfl | ⟨kvs, rfl, hk⟩
  · rfl
  · unfold add_observation_request
    simp [hk]

/-- C10, witness: a `None` session with an arbitrary keyword set on a
nonempty table. -/
theorem c10_invalid_session_witness :
    add_observation_request [c2Row] none c1Kwargs = (.error .valueError, [c2Row]) :=
  c10_invalid_session_rejected [c2Row] none c1Kwargs (Or.inl rfl)

/-! ## Claim C9 -/

/-- C9: `validate_session` returns an owning user id only for a stored row
with that token whose `expires_at` is strictly later than now; it returns
some id exactly when such a row exists (absence is `none`, not an error);
and after `end_session` on a token, `validate_session` on that token
returns `none`, for every database state. -/
theorem c9_validate_session_contract :
    (∀ (db : List SessionRow) (token : String) (now : Int) (u : Int),
       validate_session db token now = some u →
       ∃ r ∈ db, r.session_id = token ∧ now < r.expires_at ∧ r.user_id = u) ∧
    (∀ (db : List SessionRow) (token : String) (now : Int),
       (validate_session db token now).isSome ↔
         ∃ r ∈ db, r.session_id = token ∧ now < r.expires_at) ∧
    (∀ (db : List SessionRow) (token : String) (now : Int),
       validate_session (end_session db token) token now = none) := by
  refine ⟨?_, ?_, ?_⟩
  · intro db token now u h
    unfold validate_session at h
    rw [Option.map_eq_some'] at h
    obtain ⟨r, hr, hu⟩ := h
    have hmem := List.mem_of_find?_eq_some hr
    have hp := List.find?_some hr
    simp only [Bool.and_eq_true, beq_iff_eq, decide_eq_true_eq] at hp
    exact ⟨r, hmem, hp.1, hp.2, hu⟩
  · intro db token now
    unfold validate_session
    cases hfind : List.find? (fun r => r.session_id == token && decide (now < r.expires_at)) db with
    | none =>
      simp only [hfind, Option.map_none', Option.isSome_none, Bool.false_eq_true, false_iff]
      rw [List.find?_eq_none] at hfind
      rintro ⟨r, hr, h1, h2⟩
      have := hfind r hr
      simp [h1, h2] at this
    | some r =>
      simp only [hfind, Option.map_some', Option.isSome_some, true_iff]
      have hmem := List.mem_of_find?_eq_some hfind
      have hp := List.find?_some hfind
      simp only [Bool.and_eq_true, beq_iff_eq, decide_eq_true_eq] at hp
      exact ⟨r, hmem, hp.1, hp.2⟩
  · intro db token now
    unfold validate_session
    rw [Option.map_eq_none', List.find?_eq_none]
    intro r hr
    have hm : r ∈ db ∧ ¬ r.session_id = token := by
      simpa [end_session] using hr
    simp [hm.2]

/-- A stored session row. -/
def c9Row : SessionRow := { session_id := "tok", user_id := 7, expires_at := 100 }

/-- C9, witness: at time 0 the token `"tok"` validates to user 7, and after
`end_session` the same token validates to `none`. -/
theorem c9_validate_witness :
    (∃ r ∈ [c9Row], r.session_id = "tok" ∧ (0 : Int) < r.expires_at ∧ r.user_id = 7) ∧
    validate_session (end_session [c9Row] "tok") "tok" 0 = none :=
  ⟨c9_validate_session_contract.1 [c9Row] "tok" 0 7 rfl,
   c9_validate_session_contract.2.2 [c9Row] "tok" 0⟩

end ScheduleRequest
